import Mathlib

/-!
Shallow embedding of the indicator / trend-classification core of the
stock_analyzer repository (src/stock_analyzer.py and src/app.py).

Numbers: the source computes over IEEE-754 float64 series (pandas).  The
embedding uses exact rationals plus explicit special values (NaN, +inf,
-inf) as the value domain `PF`; pandas/NumPy elementwise semantics on the
specials (NaN-poisoning, signed division by zero, comparisons with NaN
being false) is spelled out in the arithmetic below.  Square roots
(rolling standard deviation, Bollinger band width) are irrational, so the
`Volatility` / `BB_*` columns use `Rat.sqrt` as a stand-in; no theorem in
this file depends on the numeric value of those three columns.
-/

namespace StockAnalyzer

/-- A pandas float64 cell: an exact rational, or one of the IEEE special
values NaN, +inf, -inf that the source's arithmetic can produce. -/
inductive PF where
  | nan : PF
  | pinf : PF
  | ninf : PF
  | num : ℚ → PF
deriving DecidableEq, Repr

namespace PF

/-- Is this cell NaN (pandas `pd.isna`)? -/
def isNan : PF → Bool
  | .nan => true
  | _ => false

/-- Is this cell an ordinary finite number? -/
def isNum : PF → Bool
  | .num _ => true
  | _ => false

/-- The rational carried by a finite cell (0 for the specials). -/
def toQ : PF → ℚ
  | .num q => q
  | _ => 0

/-- IEEE-754 `>` on float64 cells: any comparison with NaN is false. -/
def gt : PF → PF → Bool
  | .nan, _ => false
  | _, .nan => false
  | .pinf, .pinf => false
  | .pinf, _ => true
  | .ninf, _ => false
  | .num _, .pinf => false
  | .num _, .ninf => true
  | .num a, .num b => decide (b < a)

/-- IEEE-754 `<` on float64 cells: any comparison with NaN is false. -/
def lt : PF → PF → Bool
  | .nan, _ => false
  | _, .nan => false
  | .ninf, .ninf => false
  | .ninf, _ => true
  | .pinf, _ => false
  | .num _, .ninf => false
  | .num _, .pinf => true
  | .num a, .num b => decide (a < b)

/-- IEEE-754 negation. -/
def neg : PF → PF
  | .nan => .nan
  | .pinf => .ninf
  | .ninf => .pinf
  | .num q => .num (-q)

/-- IEEE-754 addition on float64 cells (NaN poisons; inf + (-inf) = NaN). -/
def add : PF → PF → PF
  | .nan, _ => .nan
  | _, .nan => .nan
  | .pinf, .ninf => .nan
  | .ninf, .pinf => .nan
  | .pinf, _ => .pinf
  | .ninf, _ => .ninf
  | .num _, .pinf => .pinf
  | .num _, .ninf => .ninf
  | .num a, .num b => .num (a + b)

/-- IEEE-754 subtraction, `a - b = a + (-b)`. -/
def sub (a b : PF) : PF := add a (neg b)

/-- IEEE-754 multiplication (NaN poisons; inf * 0 = NaN). -/
def mul : PF → PF → PF
  | .nan, _ => .nan
  | _, .nan => .nan
  | .pinf, .pinf => .pinf
  | .pinf, .ninf => .ninf
  | .ninf, .pinf => .ninf
  | .ninf, .ninf => .pinf
  | .pinf, .num b => if b = 0 then .nan else if 0 < b then .pinf else .ninf
  | .ninf, .num b => if b = 0 then .nan else if 0 < b then .ninf else .pinf
  | .num a, .pinf => if a = 0 then .nan else if 0 < a then .pinf else .ninf
  | .num a, .ninf => if a = 0 then .nan else if 0 < a then .ninf else .pinf
  | .num a, .num b => .num (a * b)

/-- NumPy float64 division as pandas performs it elementwise: finite/0 is
a signed infinity, 0/0 is NaN (no exception), finite/inf is 0. -/
def div : PF → PF → PF
  | .nan, _ => .nan
  | _, .nan => .nan
  | .pinf, .pinf => .nan
  | .pinf, .ninf => .nan
  | .ninf, .pinf => .nan
  | .ninf, .ninf => .nan
  | .pinf, .num b => if 0 ≤ b then .pinf else .ninf
  | .ninf, .num b => if 0 ≤ b then .ninf else .pinf
  | .num _, .pinf => .num 0
  | .num _, .ninf => .num 0
  | .num a, .num b =>
      if b = 0 then
        if a = 0 then .nan else if 0 < a then .pinf else .ninf
      else .num (a / b)

end PF

/-! ## Series primitives (pandas operations used by the source) -/

/-- Pandas `series.diff()` at row `i`: NaN on the first row, else the close-to-close
change `c[i] - c[i-1]`. -/
def deltaAt (c : List ℚ) (i : ℕ) : PF :=
  if i = 0 then .nan else .num (c.getD i 0 - c.getD (i - 1) 0)

/-- Pandas `delta.where(delta > 0, 0)` at row `i`: keep the change where it is
positive, else 0.  Note NaN > 0 is false, so the first row's NaN becomes 0. -/
def gainAt (c : List ℚ) (i : ℕ) : PF :=
  if PF.gt (deltaAt c i) (.num 0) then deltaAt c i else .num 0

/-- Pandas `-delta.where(delta < 0, 0)` at row `i` (negation binds after `where`). -/
def lossAt (c : List ℚ) (i : ℕ) : PF :=
  PF.neg (if PF.lt (deltaAt c i) (.num 0) then deltaAt c i else .num 0)

/-- Mean of a window of cells: NaN unless every cell is finite
(pandas skips nothing at the default `min_periods = window`). -/
def meanPF (xs : List PF) : PF :=
  if xs.all PF.isNum then .num ((xs.map PF.toQ).sum / xs.length) else .nan

/-- The trailing window of width `w` ending at row `i`. -/
def windowVals (w : ℕ) (f : ℕ → PF) (i : ℕ) : List PF :=
  (List.range w).map fun k => f (i + 1 - w + k)

/-- Pandas `series.rolling(window=w).mean()` at row `i`: NaN until a full window
of `w` rows is available, then the arithmetic mean of the trailing window. -/
def rollingMeanAt (w : ℕ) (f : ℕ → PF) (i : ℕ) : PF :=
  if i + 1 < w then .nan else meanPF (windowVals w f i)

/-- The ratio `rs = gain / loss` at row `i`
(src/stock_analyzer.py line 157, src/app.py line 142). -/
def rsAt (c : List ℚ) (i : ℕ) : PF :=
  PF.div (rollingMeanAt 14 (gainAt c) i) (rollingMeanAt 14 (lossAt c) i)

/-- The column `RSI = 100 - (100 / (1 + rs))` at row `i`
(src/stock_analyzer.py line 158, src/app.py line 143). -/
def rsiAt (c : List ℚ) (i : ℕ) : PF :=
  PF.sub (.num 100) (PF.div (.num 100) (PF.add (.num 1) (rsAt c i)))

/-- Pandas `close.rolling(window=w).mean()` at row `i` (the SMA / BB_Middle columns). -/
def smaAt (w : ℕ) (c : List ℚ) (i : ℕ) : PF :=
  rollingMeanAt w (fun j => .num (c.getD j 0)) i

/-- Trailing window of the raw closes, width `w`, ending at row `i`. -/
def closeWindow (w : ℕ) (c : List ℚ) (i : ℕ) : List ℚ :=
  (List.range w).map fun k => c.getD (i + 1 - w + k) 0

/-- Pandas `close.rolling(window=w).std()` at row `i`: pandas sample standard
deviation (ddof = 1) over the trailing window.  The square root of the
sample variance is irrational in general, so `Rat.sqrt` stands in for the
float64 square root; no theorem below depends on this column's value. -/
def rollingStdAt (w : ℕ) (c : List ℚ) (i : ℕ) : PF :=
  if i + 1 < w then .nan
  else
    let xs := closeWindow w c i
    let m := xs.sum / w
    .num (Rat.sqrt ((xs.map fun x => (x - m) ^ 2).sum / (w - 1)))

/-- Pandas `close.ewm(span=s, adjust=False).mean()` at row `i`: the recurrence
`ema[0] = close[0]`, `ema[t] = α·close[t] + (1-α)·ema[t-1]`, `α = 2/(s+1)`. -/
def emaAt (s : ℕ) (c : List ℚ) : ℕ → ℚ
  | 0 => c.getD 0 0
  | i + 1 =>
      let α : ℚ := 2 / (s + 1)
      α * c.getD (i + 1) 0 + (1 - α) * emaAt s c i

/-- The column `MACD = exp1 - exp2` at row `i` (EMA span 12 minus EMA span 26). -/
def macdAt (c : List ℚ) (i : ℕ) : ℚ := emaAt 12 c i - emaAt 26 c i

/-- The column `Signal = MACD.ewm(span=9, adjust=False).mean()` at row `i`. -/
def signalAt (c : List ℚ) : ℕ → ℚ
  | 0 => macdAt c 0
  | i + 1 =>
      let α : ℚ := 2 / (9 + 1)
      α * macdAt c (i + 1) + (1 - α) * signalAt c i

/-- The column `Histogram = MACD - Signal` at row `i`. -/
def histogramAt (c : List ℚ) (i : ℕ) : ℚ := macdAt c i - signalAt c i

/-- Pandas `close.pct_change() * 100` at row `i`: NaN on the first row, else the
percentage change against the previous close. -/
def dailyReturnAt (c : List ℚ) (i : ℕ) : PF :=
  if i = 0 then .nan
  else PF.mul (PF.sub (PF.div (.num (c.getD i 0)) (.num (c.getD (i - 1) 0))) (.num 1)) (.num 100)

/-- Materialize a per-row formula as a column of the same length as the series. -/
def colOf (c : List ℚ) (f : ℕ → PF) : List PF :=
  (List.range c.length).map f

/-! ## Data model: the price frame -/

/-- One OHLCV bar of a PriceSeries. -/
structure Bar where
  open_ : ℚ
  high : ℚ
  low : ℚ
  close : ℚ
  volume : ℚ
deriving DecidableEq, Repr

/-- A pandas DataFrame as the source uses it: the fetched OHLCV rows plus
whatever derived columns have been assigned into it (`df['Name'] = series`),
in assignment order. -/
structure Frame where
  rows : List Bar
  derived : List (String × List PF) := []
deriving DecidableEq, Repr

/-- The Close column of a frame. -/
def Frame.close (f : Frame) : List ℚ := f.rows.map Bar.close

/-- Column lookup, `df['name']` for a derived column (none models KeyError). -/
def Frame.getCol (f : Frame) (name : String) : Option (List PF) :=
  f.derived.lookup name

/-- The full list of derived (assigned) column names, in assignment order. -/
def Frame.derivedNames (f : Frame) : List String := f.derived.map Prod.fst

/-- The method `StockAnalyzer.calculate_technical_indicators`
(src/stock_analyzer.py lines 142-178).  The source assigns every derived
series into `self.data` itself (`self.data['SMA_10'] = ...`) with no copy,
so the returned frame is the post-state of the caller's own DataFrame. -/
def sa_calculate_technical_indicators (f : Frame) : Frame :=
  let c := f.close
  { f with derived :=
      [ ("SMA_10", colOf c (smaAt 10 c)),
        ("SMA_30", colOf c (smaAt 30 c)),
        ("SMA_60", colOf c (smaAt 60 c)),
        ("Volatility", colOf c (rollingStdAt 20 c)),
        ("RSI", colOf c (rsiAt c)),
        ("MACD", colOf c (fun i => .num (macdAt c i))),
        ("Signal", colOf c (fun i => .num (signalAt c i))),
        ("Histogram", colOf c (fun i => .num (histogramAt c i))),
        ("BB_Middle", colOf c (smaAt 20 c)),
        ("BB_Upper", colOf c (fun i => PF.add (smaAt 20 c i) (PF.mul (rollingStdAt 20 c i) (.num 2)))),
        ("BB_Lower", colOf c (fun i => PF.sub (smaAt 20 c i) (PF.mul (rollingStdAt 20 c i) (.num 2)))),
        ("Daily_Return", colOf c (dailyReturnAt c)) ] }

/-- The function `calculate_indicators` (src/app.py lines 126-159).  The source works on
`df = data.copy()` and returns `df`, so the caller's frame is untouched and
the result is a fresh frame; no `Daily_Return` column here. -/
def app_calculate_indicators (data : Frame) : Frame :=
  let c := data.close
  { data with derived :=
      [ ("SMA_10", colOf c (smaAt 10 c)),
        ("SMA_30", colOf c (smaAt 30 c)),
        ("SMA_60", colOf c (smaAt 60 c)),
        ("Volatility", colOf c (rollingStdAt 20 c)),
        ("RSI", colOf c (rsiAt c)),
        ("MACD", colOf c (fun i => .num (macdAt c i))),
        ("Signal", colOf c (fun i => .num (signalAt c i))),
        ("Histogram", colOf c (fun i => .num (histogramAt c i))),
        ("BB_Middle", colOf c (smaAt 20 c)),
        ("BB_Upper", colOf c (fun i => PF.add (smaAt 20 c i) (PF.mul (rollingStdAt 20 c i) (.num 2)))),
        ("BB_Lower", colOf c (fun i => PF.sub (smaAt 20 c i) (PF.mul (rollingStdAt 20 c i) (.num 2)))) ] }

/-! ## Trend classification -/

/-- The five trend classes of the if/elif chain, plus the explicit
insufficient-data label that only src/app.py can produce. -/
inductive TrendLabel where
  | strongBullish
  | bullish
  | strongBearish
  | bearish
  | sideways
  | insufficientData
deriving DecidableEq, Repr

/-- RSI signal labels. -/
inductive RsiLabel where
  | overbought
  | oversold
  | neutral
deriving DecidableEq, Repr

/-- MACD crossover labels. -/
inductive MacdLabel where
  | bullish
  | bearish
deriving DecidableEq, Repr

/-- The trend if/elif chain, identical in src/stock_analyzer.py lines
190-209 and src/app.py lines 371-380.  Python chained comparison
`a > b > c` is `a > b and b > c`; every float comparison with NaN is false. -/
def trendChain (latest sma10 sma30 : PF) : TrendLabel :=
  if PF.gt latest sma10 && PF.gt sma10 sma30 then .strongBullish
  else if PF.gt latest sma10 then .bullish
  else if PF.lt latest sma10 && PF.lt sma10 sma30 then .strongBearish
  else if PF.lt latest sma10 then .bearish
  else .sideways

/-- The RSI signal chain (src/stock_analyzer.py lines 212-217; the same
thresholds appear in src/app.py line 393). -/
def rsiChain (rsi : PF) : RsiLabel :=
  if PF.gt rsi (.num 70) then .overbought
  else if PF.lt rsi (.num 30) then .oversold
  else .neutral

/-- The MACD signal chain (src/stock_analyzer.py lines 220-223; the same
comparison appears in src/app.py line 394). -/
def macdChain (macd signal : PF) : MacdLabel :=
  if PF.gt macd signal then .bullish else .bearish

/-- The trend branch of src/app.py lines 367-382: the SMA values are
checked with `pd.isna` first; only if both are defined does the
if/elif chain run, otherwise the explicit insufficient-data label. -/
def app_trendBranch (latest sma10 sma30 : PF) : TrendLabel :=
  if !sma10.isNan && !sma30.isNan then trendChain latest sma10 sma30
  else .insufficientData

/-- src/app.py lines 363 and 393: the latest RSI is defaulted to 0 when it
is NaN, and the metric label is then derived from the defaulted value. -/
def app_rsiDefault (rsi : PF) : PF :=
  if rsi.isNan then .num 0 else rsi

/-- The RSI metric label of src/app.py line 393, applied to the defaulted
latest RSI of line 363. -/
def app_rsiMetricLabel (rsi : PF) : RsiLabel :=
  rsiChain (app_rsiDefault rsi)

/-- Pandas `series.max()` over the rows (NaN on an empty frame). -/
def colMax (xs : List ℚ) : PF :=
  match xs.max? with
  | some m => .num m
  | none => .nan

/-- Pandas `series.min()` over the rows (NaN on an empty frame). -/
def colMin (xs : List ℚ) : PF :=
  match xs.min? with
  | some m => .num m
  | none => .nan

/-- Pandas `series.mean()` over the rows (NaN on an empty frame). -/
def colMean (xs : List ℚ) : PF :=
  if xs.isEmpty then .nan else .num (xs.sum / xs.length)

/-- The scalar snapshot dict returned by `analyze_trend`
(src/stock_analyzer.py lines 228-245), restricted to its data fields. -/
structure Assessment where
  trend : TrendLabel
  latest_price : ℚ
  sma_10 : PF
  sma_30 : PF
  rsi : PF
  rsi_signal : RsiLabel
  macd : PF
  signal : PF
  macd_signal : MacdLabel
  period_return : PF
  volatility : PF
  high : PF
  low : PF
  avg_volume : PF
deriving DecidableEq, Repr

/-- The method `StockAnalyzer.analyze_trend` (src/stock_analyzer.py lines 180-245).
`iloc[-1]` on an empty series raises IndexError and `df['X']` on a missing
column raises KeyError; both are modelled by `none`. -/
def sa_analyze_trend (f : Frame) : Option Assessment := do
  let latest_price ← f.close.getLast?
  let sma_10 ← (← f.getCol "SMA_10").getLast?
  let sma_30 ← (← f.getCol "SMA_30").getLast?
  let rsi ← (← f.getCol "RSI").getLast?
  let macd ← (← f.getCol "MACD").getLast?
  let signal ← (← f.getCol "Signal").getLast?
  let firstClose ← f.close.head?
  let volatility ← (← f.getCol "Volatility").getLast?
  pure
    { trend := trendChain (.num latest_price) sma_10 sma_30
      latest_price := latest_price
      sma_10 := sma_10
      sma_30 := sma_30
      rsi := rsi
      rsi_signal := rsiChain rsi
      macd := macd
      signal := signal
      macd_signal := macdChain macd signal
      period_return :=
        PF.mul (PF.sub (PF.div (.num latest_price) (.num firstClose)) (.num 1)) (.num 100)
      volatility := volatility
      high := colMax (f.rows.map Bar.high)
      low := colMin (f.rows.map Bar.low)
      avg_volume := colMean (f.rows.map Bar.volume) }

/-! ## Multi-symbol comparison -/

/-- One line of the comparison summary printed by `compare_stocks`
(src/stock_analyzer.py lines 599-607): latest close, period return, and
the latest value of the inline RSI recomputation. -/
structure CompareRow where
  latest : PF
  period_return : PF
  rsi : PF
deriving DecidableEq, Repr

/-- The last cell of a column (NaN stands for the out-of-range access that
cannot happen on the non-empty frames the comparison loop keeps). -/
def lastCell (xs : List PF) : PF := (xs.getLast?).getD .nan

/-- The summary row computed for one kept symbol
(src/stock_analyzer.py lines 600-606). -/
def compareRowOf (d : Frame) : CompareRow :=
  let latest := lastCell (d.close.map PF.num)
  { latest := latest
    period_return :=
      PF.mul (PF.sub (PF.div latest (lastCell ((d.close.take 1).map PF.num))) (.num 1)) (.num 100)
    rsi := lastCell (colOf d.close (rsiAt d.close)) }

/-- The fetch loop of `compare_stocks` (src/stock_analyzer.py lines
478-490) and of the app comparison mode (src/app.py lines 442-449): a
symbol whose fetch raised (`none`) or returned an empty frame is skipped;
every other symbol is kept with its data.  Each symbol is processed
independently — a failure never stops the loop. -/
def validData (fetched : List (String × Option Frame)) : List (String × Frame) :=
  fetched.filterMap fun p =>
    match p.2 with
    | some d => if d.rows.isEmpty then none else some (p.1, d)
    | none => none

/-- The function `compare_stocks` (src/stock_analyzer.py lines 469-610), with the
network fetch results supplied as input: builds `all_data` from the
non-empty successful fetches, returns `False` (here `none`) when fewer
than 2 symbols survive, and otherwise produces the per-symbol comparison
summary.  src/app.py lines 439-455 guard identically (`st.stop` when
`len(all_data) < 2`). -/
def compare_stocks (fetched : List (String × Option Frame)) :
    Option (List (String × CompareRow)) :=
  let all_data := validData fetched
  if all_data.length < 2 then none
  else some (all_data.map fun p => (p.1, compareRowOf p.2))

/-! ## The four textually separate RSI computations (for the
equivalence claim).  Each is transcribed from its own source site. -/

/-- RSI as computed inside `calculate_technical_indicators`
(src/stock_analyzer.py lines 153-158). -/
def rsi_sa_indicators (c : List ℚ) (i : ℕ) : PF :=
  let gain := rollingMeanAt 14 (gainAt c)
  let loss := rollingMeanAt 14 (lossAt c)
  let rs := PF.div (gain i) (loss i)
  PF.sub (.num 100) (PF.div (.num 100) (PF.add (.num 1) rs))

/-- RSI as recomputed inline in the `compare_stocks` RSI panel and summary
(src/stock_analyzer.py lines 530-535 and 602-606). -/
def rsi_sa_compare (c : List ℚ) (i : ℕ) : PF :=
  let gain := rollingMeanAt 14 (gainAt c)
  let loss := rollingMeanAt 14 (lossAt c)
  let rs := PF.div (gain i) (loss i)
  PF.sub (.num 100) (PF.div (.num 100) (PF.add (.num 1) rs))

/-- RSI as computed inside `calculate_indicators` (src/app.py lines 138-143). -/
def rsi_app_indicators (c : List ℚ) (i : ℕ) : PF :=
  let gain := rollingMeanAt 14 (gainAt c)
  let loss := rollingMeanAt 14 (lossAt c)
  let rs := PF.div (gain i) (loss i)
  PF.sub (.num 100) (PF.div (.num 100) (PF.add (.num 1) rs))

/-- RSI as recomputed inline in `create_comparison_chart` (src/app.py
lines 251-255, `rolling(14)` positional, no `rs` intermediate:
`rsi = 100 - (100 / (1 + gain / loss))`). -/
def rsi_app_chart (c : List ℚ) (i : ℕ) : PF :=
  let gain := rollingMeanAt 14 (gainAt c)
  let loss := rollingMeanAt 14 (lossAt c)
  PF.sub (.num 100) (PF.div (.num 100) (PF.add (.num 1) (PF.div (gain i) (loss i))))

end StockAnalyzer
namespace StockAnalyzer

/-! ## Helper lemmas -/

/-- Comparisons against NaN are false (right argument). -/
theorem PF.gt_nan (x : PF) : PF.gt x .nan = false := by
  cases x <;> rfl

/-- Comparisons against NaN are false (right argument). -/
theorem PF.lt_nan (x : PF) : PF.lt x .nan = false := by
  cases x <;> rfl

/-- A list of nonnegative rationals containing a positive element has a
positive sum. -/
theorem sum_pos_of_mem_pos (l : List ℚ) (h0 : ∀ x ∈ l, 0 ≤ x)
    (x : ℚ) (hm : x ∈ l) (hx : 0 < x) : 0 < l.sum := by
  induction l with
  | nil => simp at hm
  | cons a t ih =>
    rw [List.sum_cons]
    rcases List.mem_cons.mp hm with rfl | hmt
    · have ht : 0 ≤ t.sum :=
        List.sum_nonneg fun y hy => h0 y (List.mem_cons_of_mem _ hy)
      linarith
    · have ha : 0 ≤ a := h0 a (List.mem_cons_self a t)
      have ht := ih (fun y hy => h0 y (List.mem_cons_of_mem _ hy)) hmt
      linarith

/-- The mean of a window of plain numbers is their arithmetic mean. -/
theorem meanPF_map_num (l : List ℚ) :
    meanPF (l.map PF.num) = .num (l.sum / l.length) := by
  simp [meanPF, List.all_map, PF.isNum, List.map_map, Function.comp_def, PF.toQ]

/-! ## Claim theorems -/

/-- C10: the four separate RSI computations in the repository — inside
`StockAnalyzer.calculate_technical_indicators`, inline in `compare_stocks`,
inside `calculate_indicators` in app.py, and inline in
`create_comparison_chart` in app.py — produce the identical RSI value at
every row of the same Close series (same trailing-14 simple-mean
gain/loss formula). -/
theorem rsi_four_sites_equivalent (c : List ℚ) (i : ℕ) :
    rsi_sa_indicators c i = rsiAt c i ∧
    rsi_sa_compare c i = rsiAt c i ∧
    rsi_app_indicators c i = rsiAt c i ∧
    rsi_app_chart c i = rsiAt c i :=
  ⟨rfl, rfl, rfl, rfl⟩

/-- C6: for defined MACD and Signal values, the MACD signal is the bullish
crossover state if and only if MACD > Signal strictly, bearish otherwise;
in particular equality yields the bearish state. -/
theorem macd_signal_strict_crossover (m s : ℚ) :
    (macdChain (.num m) (.num s) = .bullish ↔ s < m) ∧
    (macdChain (.num m) (.num s) = .bearish ↔ ¬ s < m) ∧
    macdChain (.num s) (.num s) = .bearish := by
  refine ⟨?_, ?_, by simp [macdChain, PF.gt]⟩ <;> by_cases h : s < m <;>
    simp [macdChain, PF.gt, h]

/-- C7 (amended): for a defined last-row RSI value the signal is
overbought iff RSI > 70, oversold iff RSI < 30, and neutral otherwise;
when RSI is undefined (NaN), `analyze_trend` in stock_analyzer.py reports
neutral, but the metric label in app.py defaults the NaN to 0 and
therefore reports oversold, not neutral. -/
theorem rsi_signal_thresholds (r : ℚ) :
    (rsiChain (.num r) = .overbought ↔ 70 < r) ∧
    (rsiChain (.num r) = .oversold ↔ r < 30) ∧
    (rsiChain (.num r) = .neutral ↔ (¬ 70 < r ∧ ¬ r < 30)) ∧
    rsiChain .nan = .neutral ∧
    app_rsiMetricLabel .nan = .oversold := by
  refine ⟨?_, ?_, ?_, by decide, by decide⟩ <;>
    by_cases h1 : 70 < r <;> by_cases h2 : r < 30 <;>
      simp [rsiChain, PF.gt, PF.lt, h1, h2] <;> linarith

/-- C7 counterexample: on a two-bar series the last-row RSI is still
undefined (NaN), and the RSI metric label that app.py computes for it
(lines 363 and 393) is "oversold", not "neutral" as the claim requires. -/
theorem rsi_undefined_app_label_oversold :
    (((app_calculate_indicators
          { rows := [⟨1, 1, 1, 1, 1⟩, ⟨1, 1, 1, 2, 1⟩] }).getCol "RSI").map
        fun col => app_rsiMetricLabel (lastCell col)) = some .oversold := by
  decide

/-- C5: when close, SMA_10 and SMA_30 are all defined, the trend label of
the if/elif chain (shared by stock_analyzer.py lines 190-209 and app.py
lines 371-380) is exactly the priority-ordered decision tree of the spec:
close > SMA_10 > SMA_30 strong bullish, else close > SMA_10 bullish, else
close < SMA_10 < SMA_30 strong bearish, else close < SMA_10 bearish, else
sideways; the app branch agrees because its NaN guard passes. -/
theorem trend_decision_tree (c a b : ℚ) :
    trendChain (.num c) (.num a) (.num b) =
      (if a < c ∧ b < a then .strongBullish
       else if a < c then .bullish
       else if c < a ∧ a < b then .strongBearish
       else if c < a then .bearish
       else .sideways) ∧
    app_trendBranch (.num c) (.num a) (.num b) = trendChain (.num c) (.num a) (.num b) := by
  constructor
  · by_cases h1 : a < c <;> by_cases h2 : b < a <;>
      by_cases h3 : c < a <;> by_cases h4 : a < b <;>
        simp [trendChain, PF.gt, PF.lt, h1, h2, h3, h4] <;> linarith
  · rfl

/-- The gain series is always a plain nonnegative number: the `where`
replaces both the first-row NaN and the nonpositive changes by 0. -/
theorem gainAt_num (c : List ℚ) (j : ℕ) :
    gainAt c j = .num (gainAt c j).toQ ∧ 0 ≤ (gainAt c j).toQ := by
  by_cases hj : j = 0
  · subst hj; simp [gainAt, deltaAt, PF.gt, PF.toQ]
  · simp only [gainAt, deltaAt]
    rw [if_neg hj]
    by_cases hd : (0 : ℚ) < c.getD j 0 - c.getD (j - 1) 0
    · rw [if_pos ?hc]
      case hc => simp only [PF.gt, decide_eq_true_eq]; exact hd
      exact ⟨rfl, by simp only [PF.toQ]; linarith⟩
    · rw [if_neg ?hc]
      case hc => simp only [PF.gt, decide_eq_true_eq]; exact hd
      exact ⟨rfl, by simp only [PF.toQ]; exact le_refl 0⟩

/-- On a window with no falling close, the trailing-14 average loss is 0. -/
theorem avg_loss_zero (c : List ℚ) (i : ℕ) (hi : 14 ≤ i)
    (h : ∀ k, k < 14 → c.getD (i - 14 + k) 0 ≤ c.getD (i - 13 + k) 0) :
    rollingMeanAt 14 (lossAt c) i = .num 0 := by
  rw [rollingMeanAt, if_neg (by omega)]
  have hw : windowVals 14 (lossAt c) i = (List.range 14).map fun _ => PF.num 0 := by
    rw [windowVals]
    apply List.map_congr_left
    intro k hk
    have hk14 : k < 14 := List.mem_range.mp hk
    have hj : ¬ i + 1 - 14 + k = 0 := by omega
    have e1 : i + 1 - 14 + k = i - 13 + k := by omega
    have e2 : i - 13 + k - 1 = i - 14 + k := by omega
    have hge : 0 ≤ c.getD (i - 13 + k) 0 - c.getD (i - 13 + k - 1) 0 := by
      rw [e2]
      have := h k hk14
      linarith
    simp only [lossAt, deltaAt]
    rw [if_neg hj, e1]
    rw [if_neg ?hc]
    case hc => simp only [PF.lt, decide_eq_true_eq]; exact not_lt.mpr (by linarith)
    simp [PF.neg]
  have hz : ((List.range 14).map fun _ => PF.num 0) =
      ((List.range 14).map fun _ => (0 : ℚ)).map PF.num := by
    simp [List.map_map]
  rw [hw, hz, meanPF_map_num]
  simp

/-- On a window with no falling close and at least one rising close, the
trailing-14 average gain is a strictly positive number. -/
theorem avg_gain_pos (c : List ℚ) (i : ℕ) (hi : 14 ≤ i)
    (hx : ∃ k, k < 14 ∧ c.getD (i - 14 + k) 0 < c.getD (i - 13 + k) 0) :
    ∃ g : ℚ, 0 < g ∧ rollingMeanAt 14 (gainAt c) i = .num g := by
  rw [rollingMeanAt, if_neg (by omega)]
  have hw : windowVals 14 (gainAt c) i =
      ((List.range 14).map fun k => (gainAt c (i + 1 - 14 + k)).toQ).map PF.num := by
    rw [windowVals, List.map_map]
    apply List.map_congr_left
    intro k _
    exact (gainAt_num c _).1
  rw [hw, meanPF_map_num]
  refine ⟨_, ?_, rfl⟩
  apply div_pos
  · obtain ⟨k0, hk0, hlt⟩ := hx
    refine sum_pos_of_mem_pos _ ?h0 ((gainAt c (i + 1 - 14 + k0)).toQ) ?hm ?hx
    case h0 =>
      intro x hxm
      obtain ⟨k, _, rfl⟩ := List.mem_map.mp hxm
      exact (gainAt_num c _).2
    case hm => exact List.mem_map.mpr ⟨k0, List.mem_range.mpr hk0, rfl⟩
    case hx =>
      have hj : ¬ i + 1 - 14 + k0 = 0 := by omega
      have e1 : i + 1 - 14 + k0 = i - 13 + k0 := by omega
      have e2 : i - 13 + k0 - 1 = i - 14 + k0 := by omega
      have hd : (0 : ℚ) < c.getD (i - 13 + k0) 0 - c.getD (i - 13 + k0 - 1) 0 := by
        rw [e2]; linarith
      simp only [gainAt, deltaAt]
      rw [if_neg hj, e1]
      rw [if_pos ?hc]
      case hc => simp only [PF.gt, decide_eq_true_eq]; exact hd
      simpa only [PF.toQ] using hd
  · simp

/-- A window of 14 flat close-to-close changes makes the trailing
average gain and average loss both 0, so `rs` is the NumPy 0/0 = NaN and
the RSI value is NaN. -/
theorem rsi_all_flat_nan (c : List ℚ) (i : ℕ) (hi : 14 ≤ i)
    (heq : ∀ k, k < 14 → c.getD (i - 14 + k) 0 = c.getD (i - 13 + k) 0) :
    rsiAt c i = .nan := by
  have hloss : rollingMeanAt 14 (lossAt c) i = .num 0 :=
    avg_loss_zero c i hi fun k hk => (heq k hk).le
  have hgain0 : rollingMeanAt 14 (gainAt c) i = .num 0 := by
    rw [rollingMeanAt, if_neg (by omega)]
    have hw : windowVals 14 (gainAt c) i = (List.range 14).map fun _ => PF.num 0 := by
      rw [windowVals]
      apply List.map_congr_left
      intro k hk
      have hk14 : k < 14 := List.mem_range.mp hk
      have hj : ¬ i + 1 - 14 + k = 0 := by omega
      have e1 : i + 1 - 14 + k = i - 13 + k := by omega
      have e2 : i - 13 + k - 1 = i - 14 + k := by omega
      have hd0 : c.getD (i - 13 + k) 0 - c.getD (i - 13 + k - 1) 0 = 0 := by
        rw [e2, heq k hk14]
        ring
      simp only [gainAt, deltaAt]
      rw [if_neg hj, e1, hd0, ite_self]
    have hz : ((List.range 14).map fun _ => PF.num 0) =
        ((List.range 14).map fun _ => (0 : ℚ)).map PF.num := by
      simp [List.map_map]
    rw [hw, hz, meanPF_map_num]
    simp
  rw [rsiAt, rsAt, hgain0, hloss]
  simp [PF.div, PF.add, PF.sub, PF.neg]

/-- C1 (amended): on any row with a full window of 14 close-to-close
changes that are all nonnegative (zero trailing-14 average loss), the RSI
value of the indicator computation is exactly 100 provided at least one
change is strictly positive; in the constant-close sub-case (average gain
also 0) `rs` is the NumPy 0/0 = NaN and the RSI value is NaN, not 100. -/
theorem rsi_zero_avg_loss (c : List ℚ) (i : ℕ) (hi : 14 ≤ i) (hlen : i < c.length)
    (hmono : ∀ k, k < 14 → c.getD (i - 14 + k) 0 ≤ c.getD (i - 13 + k) 0) :
    ((∃ k, k < 14 ∧ c.getD (i - 14 + k) 0 < c.getD (i - 13 + k) 0) →
        rsiAt c i = .num 100) ∧
    ((∀ k, k < 14 → c.getD (i - 14 + k) 0 = c.getD (i - 13 + k) 0) →
        rsiAt c i = .nan) := by
  constructor
  · intro hx
    have hloss : rollingMeanAt 14 (lossAt c) i = .num 0 := avg_loss_zero c i hi hmono
    obtain ⟨g, hg, hgain⟩ := avg_gain_pos c i hi hx
    rw [rsiAt, rsAt, hgain, hloss]
    have hdiv : PF.div (.num g) (.num 0) = .pinf := by
      simp [PF.div, hg.ne', hg]
    rw [hdiv]
    show PF.num (100 + -0) = PF.num 100
    norm_num
  · exact rsi_all_flat_nan c i hi

/-- C1 witness: fifteen strictly rising closes give RSI exactly 100 on the
last row. -/
theorem rsi_zero_avg_loss_witness :
    rsiAt [100, 101, 102, 103, 104, 105, 106, 107, 108, 109, 110, 111, 112, 113, 114] 14 =
      .num 100 :=
  (rsi_zero_avg_loss
      [100, 101, 102, 103, 104, 105, 106, 107, 108, 109, 110, 111, 112, 113, 114] 14
      (by omega) (by decide) (by decide)).1 ⟨0, by omega, by decide⟩

/-- C1 counterexample: a constant Close series of 15 bars has trailing-14
average loss 0 (and average gain 0) on the last row; the computed RSI
there is NaN (from the NumPy 0/0), not 100 as the claim requires. -/
theorem rsi_constant_close_nan :
    rsiAt (List.replicate 15 (100 : ℚ)) 14 = .nan ∧
    rsiAt (List.replicate 15 (100 : ℚ)) 14 ≠ .num 100 := by
  have h : rsiAt (List.replicate 15 (100 : ℚ)) 14 = .nan :=
    rsi_all_flat_nan _ 14 (by omega) (by decide)
  refine ⟨h, ?_⟩
  rw [h]
  intro hc
  exact PF.noConfusion hc

/-- C2 (amended): app.py's single-symbol classifier returns the explicit
insufficient-data label whenever SMA_10 or SMA_30 is NaN; the classifier
in stock_analyzer.py has no such guard — with SMA_10 undefined every
comparison with NaN is false and it returns the sideways label, and with
only SMA_30 undefined it can still return bullish/bearish/sideways (it
never returns an insufficient-data label, only the strong labels are
blocked by the NaN). -/
theorem trend_insufficient_history (latest sma10 sma30 : PF) :
    app_trendBranch latest .nan sma30 = .insufficientData ∧
    app_trendBranch latest sma10 .nan = .insufficientData ∧
    trendChain latest .nan sma30 = .sideways ∧
    trendChain latest sma10 .nan ≠ .strongBullish ∧
    trendChain latest sma10 .nan ≠ .strongBearish := by
  refine ⟨?_, ?_, ?_, ?_, ?_⟩
  · simp [app_trendBranch, PF.isNan]
  · simp [app_trendBranch, PF.isNan]
  · have h1 : PF.gt latest .nan = false := PF.gt_nan latest
    have h2 : PF.lt latest .nan = false := PF.lt_nan latest
    simp [trendChain, h1, h2]
  · have h1 : PF.gt sma10 .nan = false := PF.gt_nan sma10
    have h2 : PF.lt sma10 .nan = false := PF.lt_nan sma10
    cases hg : PF.gt latest sma10 <;> cases hl : PF.lt latest sma10 <;>
      simp [trendChain, h1, h2, hg, hl]
  · have h1 : PF.gt sma10 .nan = false := PF.gt_nan sma10
    have h2 : PF.lt sma10 .nan = false := PF.lt_nan sma10
    cases hg : PF.gt latest sma10 <;> cases hl : PF.lt latest sma10 <;>
      simp [trendChain, h1, h2, hg, hl]

/-- C2 counterexample: on a one-bar series (SMA_10 and SMA_30 both
undefined) the full stock_analyzer.py pipeline classifies the trend as
the sideways label — one of the five trend labels — instead of an
insufficient-data label. -/
theorem trend_undefined_sma_sideways :
    (sa_analyze_trend (sa_calculate_technical_indicators
        { rows := [⟨100, 100, 100, 100, 100⟩] })).map Assessment.trend =
      some .sideways := by
  decide

/-- C3 (amended): neither indicator computation alters or drops the
source OHLCV rows, and app.py's `calculate_indicators` works on a copy so
its caller's frame stays untouched; but stock_analyzer.py's
`calculate_technical_indicators` writes the derived columns into the
caller's own DataFrame rather than returning a fresh table (see the
counterexample). -/
theorem indicator_rows_preserved (f : Frame) :
    (sa_calculate_technical_indicators f).rows = f.rows ∧
    (app_calculate_indicators f).rows = f.rows ∧
    (app_calculate_indicators f).close = f.close :=
  ⟨rfl, rfl, rfl⟩

/-- C3 counterexample: starting from a frame with no derived columns,
`calculate_technical_indicators` leaves the caller's DataFrame (its
post-state is the returned frame: the source assigns into `self.data`)
holding twelve added indicator columns, violating "no added columns". -/
theorem sa_calc_adds_columns_to_source :
    ({ rows := [⟨100, 101, 99, 100, 1000⟩] } : Frame).derivedNames = [] ∧
    (sa_calculate_technical_indicators
        { rows := [⟨100, 101, 99, 100, 1000⟩] }).derivedNames =
      ["SMA_10", "SMA_30", "SMA_60", "Volatility", "RSI", "MACD", "Signal",
       "Histogram", "BB_Middle", "BB_Upper", "BB_Lower", "Daily_Return"] := by
  constructor
  · rfl
  · decide

/-- C4 (amended): on an empty PriceSeries the indicator computation
returns a frame with no rows whose derived columns are all empty, raising
nothing; but the trend-analysis snapshot does not return an explicit
insufficient-data result — `analyze_trend` raises IndexError at
`iloc[-1]` on the empty Close column (modelled by `none`). -/
theorem empty_series_behavior (f : Frame) (h : f.rows = []) :
    (sa_calculate_technical_indicators f).rows = [] ∧
    ((sa_calculate_technical_indicators f).derived.all fun p => p.2.isEmpty) = true ∧
    sa_analyze_trend (sa_calculate_technical_indicators f) = none := by
  obtain ⟨rows, der⟩ := f
  subst h
  exact ⟨rfl, rfl, rfl⟩

/-- C4 witness: the empty frame instantiates the empty-series theorem. -/
theorem empty_series_behavior_witness :
    (sa_calculate_technical_indicators { rows := [] }).rows = [] ∧
    ((sa_calculate_technical_indicators { rows := [] }).derived.all
        fun p => p.2.isEmpty) = true ∧
    sa_analyze_trend (sa_calculate_technical_indicators { rows := [] }) = none :=
  empty_series_behavior { rows := [] } rfl

/-- C4 counterexample: on the empty frame the trend snapshot evaluates to
`none` — the modelled IndexError of `iloc[-1]` — and not to any
insufficient-data assessment, contradicting the claim's second half. -/
theorem empty_series_snapshot_raises :
    sa_analyze_trend (sa_calculate_technical_indicators { rows := [] }) = none := by
  decide

/-- C8: with fewer than two symbols surviving the fetch loop (failed
fetches and empty frames are skipped one by one, never aborting the
loop), `compare_stocks` reports the precondition failure and produces no
comparison output; when it does produce output, the output covers exactly
the surviving symbols. -/
theorem comparison_requires_two_valid_symbols
    (fetched : List (String × Option Frame)) :
    ((validData fetched).length < 2 → compare_stocks fetched = none) ∧
    (∀ out, compare_stocks fetched = some out →
      2 ≤ (validData fetched).length ∧
      out.map Prod.fst = (validData fetched).map Prod.fst) := by
  constructor
  · intro h
    simp [compare_stocks, h]
  · intro out h
    by_cases h2 : (validData fetched).length < 2
    · simp [compare_stocks, h2] at h
    · refine ⟨by omega, ?_⟩
      simp only [compare_stocks, if_neg h2, Option.some.injEq] at h
      subst h
      simp [List.map_map, Function.comp_def]

/-- C8 witness: one surviving symbol (one good fetch, one raised fetch,
one empty frame) makes the comparison fail its precondition. -/
theorem comparison_guard_witness :
    compare_stocks [("AAPL", some { rows := [⟨1, 1, 1, 1, 1⟩] }), ("TSLA", none),
      ("GOOGL", some { rows := [] })] = none :=
  (comparison_requires_two_valid_symbols _).1 (by decide)

/-- The derived columns of `calculate_technical_indicators` are a
function of the Close column of the input frame alone. -/
theorem sa_calc_close_only (f g : Frame) (h : f.close = g.close) :
    (sa_calculate_technical_indicators f).derived =
      (sa_calculate_technical_indicators g).derived := by
  simp only [sa_calculate_technical_indicators, h]

/-- C9: the indicator computation leaves the Close column unchanged, and
re-running it on a frame carrying the computed table's Close column
reproduces every derived column (SMA, EMA/MACD, RSI and the rest) row for
row: the computation is a pure function of the Close series with no
hidden state. -/
theorem indicator_roundtrip (f : Frame) :
    (sa_calculate_technical_indicators f).close = f.close ∧
    (sa_calculate_technical_indicators
        { rows := (sa_calculate_technical_indicators f).close.map
            fun q => ⟨q, q, q, q, q⟩ }).derived =
      (sa_calculate_technical_indicators f).derived := by
  refine ⟨rfl, ?_⟩
  apply sa_calc_close_only
  simp only [Frame.close, List.map_map, Function.comp_def]
  rfl

end StockAnalyzer
